import Mathlib

/-!
Shallow embedding of the BundleGen packaging engine
(`src/bundlegen/core/utils.py`, class `Utils`).

The Python code manipulates the filesystem (directory trees, tar archives,
plain files) and spawns one external signing subprocess.  The embedding
models the filesystem as an explicit state record (association lists of
directory trees and of flat files, plus a chronological event trace), pure
Python string computations as Lean string functions, and the external
signing subprocess as an oracle parameter carrying its exit status.
Python integers are `Nat`, Python `None`-able parameters are `Option`,
Python truthiness is modelled explicitly (`0`, `None`, `""`, `{}` are
falsy).  Fallible filesystem steps (Python exceptions) return a result that
keeps the state at the time the exception is raised.
-/

/-- Python `s.endswith(suf)`, on the character lists of the strings. -/
def strEndsWith (s suf : String) : Bool :=
  List.isSuffixOf suf.data s.data

/-- Python `s.startswith(pre)`, on the character lists of the strings. -/
def strStartsWith (s pre : String) : Bool :=
  List.isPrefixOf pre.data s.data

/-- Value of one octal digit character. -/
def octDigitVal (c : Char) : Nat := c.toNat - 48

/-- Python `int(s, 8)` on a string of octal digits. -/
def parseOct (s : String) : Nat :=
  s.data.foldl (fun a c => a * 8 + octDigitVal c) 0

/-- All characters of the string are octal digits (the inputs Python's
`int(s, 8)` accepts without raising, signs and underscores aside). -/
def isOctStr (s : String) : Bool :=
  s.data.all (fun c => 48 ≤ c.toNat && c.toNat ≤ 55)

/-- Python `os.path.join(a, b)` for a non-absolute `b`. -/
def osPathJoin (a b : String) : String :=
  if a = "" then b else if strEndsWith a "/" then a ++ b else a ++ "/" ++ b

/-- Python `os.path.basename`: everything after the last slash (empty when
the path ends with a slash). -/
def pyBasename (p : String) : String :=
  ⟨(p.data.reverse.takeWhile (fun c => c ≠ '/')).reverse⟩

/-- Drop trailing slash characters from a path. -/
def stripTrailing (p : String) : String :=
  ⟨(p.data.reverse.dropWhile (fun c => c = '/')).reverse⟩

/-- Python `os.path.abspath` for inputs free of `.` and `..` segments:
paths that are not absolute are resolved against the current working
directory, and trailing slashes are normalized away. -/
def abspath (cwd p : String) : String :=
  if strStartsWith p "/" then stripTrailing p
  else stripTrailing (cwd ++ "/" ++ p)

/-- Python `str(x)` for an optional string value: `str(None)` is the
literal text `None`. -/
def pyStrOpt : Option String → String
  | none => "None"
  | some s => s

/-- Ownership metadata of one filesystem object, as held by a
`tarfile.TarInfo` record. -/
structure FileMeta where
  uid : Nat
  gid : Nat
  uname : String
  gname : String
  mode : Nat
deriving DecidableEq, Repr

/-- Kind of an archive entry (`TarInfo.isreg` / `isdir` / anything else:
symlinks and special files are recorded without content). -/
inductive FKind where
  | reg
  | dir
  | lnk
deriving DecidableEq, Repr

mutual
/-- On-disk directory tree handed to the packagers: a regular file with
content, a directory with named children, or a symlink/special file. -/
inductive FsTree where
  | reg (m : FileMeta) (content : String) : FsTree
  | dir (m : FileMeta) (children : Forest) : FsTree
  | lnk (m : FileMeta) : FsTree
/-- Named children of a directory, in `os.listdir` order. -/
inductive Forest where
  | nil : Forest
  | cons (name : String) (t : FsTree) (rest : Forest) : Forest
end

mutual
/-- Content of a file in the modelled filesystem: plain text, a gzipped
tar archive with its member list, or an opaque zip archive. -/
inductive FileVal where
  | text (s : String) : FileVal
  | tarGz (ms : List TarEntry) : FileVal
  | zipArc : FileVal
/-- One member of a tar archive: archive name, kind, ownership metadata,
and content (present for regular files). -/
inductive TarEntry where
  | mk (name : String) (kind : FKind) (meta : FileMeta) (content : Option FileVal) : TarEntry
end

/-- Archive name of a tar member. -/
def TarEntry.name : TarEntry → String
  | .mk n _ _ _ => n

/-- Ownership metadata of a tar member. -/
def TarEntry.meta : TarEntry → FileMeta
  | .mk _ _ m _ => m

/-- Content of a tar member. -/
def TarEntry.content : TarEntry → Option FileVal
  | .mk _ _ _ c => c

/-- Python truthiness of an optional integer: `None` and `0` are falsy. -/
def truthyNat : Option Nat → Bool
  | none => false
  | some n => n != 0

/-- Python truthiness of an optional string: `None` and `""` are falsy. -/
def truthyStr : Option String → Bool
  | none => false
  | some s => s != ""

/-- Effect of `if uid: tarinfo.uid = uid; tarinfo.uname = str(uid)` in
`Utils.add_tarinfo`. -/
def applyUid : Option Nat → FileMeta → FileMeta
  | some u, m => if u ≠ 0 then { m with uid := u, uname := toString u } else m
  | none, m => m

/-- Effect of `if gid: tarinfo.gid = gid; tarinfo.gname = str(gid)` in
`Utils.add_tarinfo`. -/
def applyGid : Option Nat → FileMeta → FileMeta
  | some g, m => if g ≠ 0 then { m with gid := g, gname := toString g } else m
  | none, m => m

/-- Effect of `if mode_mask: tarinfo.mode &= int(mode_mask, 8)` in
`Utils.add_tarinfo`. -/
def applyMask : Option String → FileMeta → FileMeta
  | some s, m => if s ≠ "" then { m with mode := Nat.land m.mode (parseOct s) } else m
  | none, m => m

/-- Ownership-policy rewriting that `Utils.add_tarinfo` performs on each
`TarInfo` before handing it to `tar.addfile`. -/
def applyPolicy (u g : Option Nat) (mask : Option String) (m : FileMeta) : FileMeta :=
  applyMask mask (applyGid g (applyUid u m))

mutual
/-- `Utils.add_tarinfo`: rewrite the entry's ownership under the policy,
emit the entry (with content for regular files), and recurse over the
children of a directory, re-deriving a fresh `TarInfo` per child. -/
def add_tarinfo (u g : Option Nat) (mask : Option String) (arc : String) : FsTree → List TarEntry
  | .reg m c => [TarEntry.mk arc .reg (applyPolicy u g mask m) (some (.text c))]
  | .dir m cs => TarEntry.mk arc .dir (applyPolicy u g mask m) none :: add_tarinfo_children u g mask arc cs
  | .lnk m => [TarEntry.mk arc .lnk (applyPolicy u g mask m) none]
/-- The `for f in os.listdir(name)` loop of `Utils.add_tarinfo`: each child
is archived under `os.path.join(name_in_archive, f)`. -/
def add_tarinfo_children (u g : Option Nat) (mask : Option String) (arc : String) : Forest → List TarEntry
  | .nil => []
  | .cons f t rest =>
      add_tarinfo u g mask (osPathJoin arc f) t ++ add_tarinfo_children u g mask arc rest
end

mutual
/-- Stdlib `tarfile.TarFile.add(name, arcname)` on a filesystem object:
the bulk path of `Utils.create_tgz`, archiving native ownership unchanged. -/
def tar_add (arc : String) : FsTree → List TarEntry
  | .reg m c => [TarEntry.mk arc .reg m (some (.text c))]
  | .dir m cs => TarEntry.mk arc .dir m none :: tar_add_children arc cs
  | .lnk m => [TarEntry.mk arc .lnk m none]
/-- Recursive descent of `tarfile.TarFile.add` over a directory's children. -/
def tar_add_children (arc : String) : Forest → List TarEntry
  | .nil => []
  | .cons f t rest => tar_add (osPathJoin arc f) t ++ tar_add_children arc rest
end

mutual
/-- Specification-side description of the archive names a tree contributes
when rooted at `arc`: the root itself, then each entry's path relative to
the root joined onto `arc`. -/
def treePaths (arc : String) : FsTree → List String
  | .reg _ _ => [arc]
  | .dir _ cs => arc :: forestPaths arc cs
  | .lnk _ => [arc]
/-- Archive names contributed by a directory's children. -/
def forestPaths (arc : String) : Forest → List String
  | .nil => []
  | .cons f t rest => treePaths (osPathJoin arc f) t ++ forestPaths arc rest
end

/-- Observable filesystem events, in chronological order: `os.remove`,
opening a path for writing (plain `open(..., "w")`, `tarfile.open(..., "w:gz")`,
`shutil.make_archive`), and launching a subprocess. -/
inductive Ev where
  | remove (path : String)
  | openWrite (path : String)
  | runProc (cmd : String)
deriving DecidableEq, Repr

/-- Python exceptions the modelled operations can raise. -/
inductive PyErr where
  | fileNotFound (path : String)
deriving DecidableEq, Repr

/-- Modelled machine state: source directory trees by (absolute,
slash-normalized) path, flat files by path, and the event trace. -/
structure St where
  dirs : List (String × FsTree)
  files : List (String × FileVal)
  trace : List Ev

/-- First-match association-list lookup (newest entry wins, since updates
are consed onto the front). -/
def assocGet {α : Type} : List (String × α) → String → Option α
  | [], _ => none
  | (a, v) :: t, k => if a = k then some v else assocGet t k

/-- Drop every binding of a key from an association list. -/
def removeAll {α : Type} (k : String) (l : List (String × α)) : List (String × α) :=
  l.filter (fun kv => kv.1 ≠ k)

/-- Content of the file at a path, if one exists. -/
def lookupFile (s : St) (k : String) : Option FileVal := assocGet s.files k

/-- Python `os.path.exists(p)` for a path carrying a trailing slash: true
exactly when a directory exists at the slash-stripped path; the tree found
there. -/
def getDirAt (s : St) (p : String) : Option FsTree := assocGet s.dirs (stripTrailing p)

/-- Python `os.remove(k)`: drop the file and record the event. -/
def removeF (k : String) (s : St) : St :=
  { s with files := removeAll k s.files, trace := s.trace ++ [Ev.remove k] }

/-- Overwrite (or create) the file at a path, without an event: the final
content flush of an already-opened handle. -/
def setFile (k : String) (v : FileVal) (s : St) : St :=
  { s with files := (k, v) :: s.files }

/-- Python `open(k, "w")` followed by writing `v`: truncating create plus
its event. -/
def writeF (k : String) (v : FileVal) (s : St) : St :=
  { s with files := (k, v) :: s.files, trace := s.trace ++ [Ev.openWrite k] }

/-- Python `tarfile.open(k, "w:gz")`: an empty archive file appears at the
path the moment the handle opens. -/
def tarOpenW (k : String) (s : St) : St :=
  { s with files := (k, FileVal.tarGz []) :: s.files, trace := s.trace ++ [Ev.openWrite k] }

/-- Store (or replace) a directory tree at a path. -/
def setDir (k : String) (t : FsTree) (s : St) : St :=
  { s with dirs := (k, t) :: s.dirs }

/-- Python `shutil.rmtree(p)`: every directory and file at or under `p`
disappears. -/
def rmtree (p : String) (s : St) : St :=
  { s with dirs := s.dirs.filter (fun kv => !(strStartsWith kv.1 p)),
           files := s.files.filter (fun kv => !(strStartsWith kv.1 p)) }

/-- Result of a fallible operation: the state is retained both on normal
return and at the instant an exception propagates. -/
inductive PRes (α : Type) where
  | ok (a : α) (s : St)
  | err (e : PyErr) (s : St)

/-- The operation returned normally. -/
def PRes.isOk {α : Type} : PRes α → Bool
  | .ok _ _ => true
  | .err _ _ => false

/-- Machine state on exit, normal or exceptional. -/
def PRes.state {α : Type} : PRes α → St
  | .ok _ s => s
  | .err _ s => s

/-- Mapping modelling the `platform` dict of `Utils.create_control_file`:
only its `arch` entry is consulted; the entry, when present, is a dict
whose `arch`/`variant` keys hold optional strings. -/
structure Platform where
  arch : Option (List (String × Option String))

/-- Two-level `get` on the inner arch dict: absent keys and keys bound to
`None` both yield `None`. -/
def archGet (d : List (String × Option String)) (k : String) : Option String :=
  match assocGet d k with
  | some v => v
  | none => none

/-- Mapping modelling the `app_metadata` dict: the four keys
`Utils.create_control_file` reads, each possibly absent. -/
structure AppMeta where
  id : Option String
  version : Option String
  description : Option String
  priority : Option String

/-- The `Architecture` field: empty unless `platform.get('arch')` is
truthy (a non-empty dict), else `str(arch.get('arch')) + str(arch.get('variant'))`. -/
def architectureOf (p : Platform) : String :=
  match p.arch with
  | none => ""
  | some d => if d.isEmpty then "" else pyStrOpt (archGet d "arch") ++ pyStrOpt (archGet d "variant")

/-- Text that `Utils.create_control_file` writes: six fixed-order
line-per-field entries with the documented defaults. -/
def controlContent (p : Platform) (a : AppMeta) : String :=
  "Package: " ++ a.id.getD "test_package" ++ "\n" ++
  "Version: " ++ a.version.getD "1.0.0" ++ "\n" ++
  "Architecture: " ++ architectureOf p ++ "\n" ++
  "Description: " ++ a.description.getD "some package" ++ "\n" ++
  "Priority: " ++ a.priority.getD "optional" ++ "\n" ++
  "Depends: " ++ "" ++ "\n"

/-- `Utils.create_control_file`: open `control` for writing (truncating any
prior file there) and emit the manifest. -/
def create_control_file (p : Platform) (a : AppMeta) (s : St) : St :=
  writeF "control" (FileVal.text (controlContent p a)) s

/-- Output filename logic shared by the packagers: append the format
suffix when the destination does not already end with it. -/
def outputName (dest suf : String) : String :=
  if strEndsWith dest suf then dest else dest ++ suf

/-- `Utils.create_tgz`: compute the output name, normalize the source to
an absolute slash-terminated path, fail (returning `False`, touching
nothing) when the source directory is absent, delete a pre-existing output
file, then write the archive — entry-by-entry via `Utils.add_tarinfo` when
any ownership-policy field is truthy, else via the bulk `tar.add`. -/
def create_tgz (cwd source dest : String) (u g : Option Nat) (mask : Option String) (s : St) : Bool × St :=
  let outn := outputName dest ".tar.gz"
  let src := abspath cwd source ++ "/"
  match getDirAt s src with
  | none => (false, s)
  | some tree =>
    let s1 := if (lookupFile s outn).isSome then removeF outn s else s
    let s2 := tarOpenW outn s1
    let ms := if truthyNat u || truthyNat g || truthyStr mask then
                add_tarinfo u g mask (pyBasename src) tree
              else
                tar_add (pyBasename src) tree
    (true, setFile outn (FileVal.tarGz ms) s2)

/-- Metadata that `tar.gettarinfo` reports for the freshly written
intermediate files added to the outer ipk archive (its exact value never
matters to the packaged claims). -/
def hostMeta : FileMeta :=
  { uid := 0, gid := 0, uname := "root", gname := "root", mode := 420 }

/-- `tarfile.TarFile.add` on a single flat file: raises when the file is
absent, else appends one regular member carrying the file's content. -/
def tarAddFile (arcFile path : String) (s : St) : PRes Unit :=
  match lookupFile s path with
  | none => PRes.err (PyErr.fileNotFound path) s
  | some v =>
    match lookupFile s arcFile with
    | some (FileVal.tarGz ms) =>
        PRes.ok () (setFile arcFile (FileVal.tarGz (ms ++ [TarEntry.mk path .reg hostMeta (some v)])) s)
    | _ => PRes.ok () s

/-- `Utils.create_ipk`: build `data.tar.gz` via `create_tgz` (its result is
ignored), pack the pre-existing `control` manifest into `control.tar.gz`,
write the `debian-binary` marker (`2.0`), aggregate the three into the
outer archive in that fixed order, then unconditionally remove the four
intermediates. -/
def create_ipk (cwd source dest : String) (s : St) : PRes Bool :=
  let outn := outputName dest ".ipk"
  let s1 := (create_tgz cwd source "data.tar.gz" none none none s).2
  let s2 := tarOpenW "control.tar.gz" s1
  match lookupFile s2 "control" with
  | none => PRes.err (PyErr.fileNotFound "control") s2
  | some c =>
  let s3 := setFile "control.tar.gz" (FileVal.tarGz [TarEntry.mk "control" .reg hostMeta (some c)]) s2
  let s4 := writeF "debian-binary" (FileVal.text "2.0") s3
  let s5 := tarOpenW outn s4
  match tarAddFile outn "data.tar.gz" s5 with
  | .err e t => PRes.err e t
  | .ok _ s6 =>
  match tarAddFile outn "control.tar.gz" s6 with
  | .err e t => PRes.err e t
  | .ok _ s7 =>
  match tarAddFile outn "debian-binary" s7 with
  | .err e t => PRes.err e t
  | .ok _ s8 =>
  match lookupFile s8 "control" with
  | none => PRes.err (PyErr.fileNotFound "control") s8
  | some _ =>
  let s9 := removeF "control" s8
  match lookupFile s9 "data.tar.gz" with
  | none => PRes.err (PyErr.fileNotFound "data.tar.gz") s9
  | some _ =>
  let s10 := removeF "data.tar.gz" s9
  match lookupFile s10 "control.tar.gz" with
  | none => PRes.err (PyErr.fileNotFound "control.tar.gz") s10
  | some _ =>
  let s11 := removeF "control.tar.gz" s10
  match lookupFile s11 "debian-binary" with
  | none => PRes.err (PyErr.fileNotFound "debian-binary") s11
  | some _ => PRes.ok true (removeF "debian-binary" s11)

/-- Fixed resource location of the widget descriptor file. -/
def cfgPath : String := "/home/vagrant/bundlegen/bundlegen/sky/resources/config.xml"

/-- Fixed resource location of the widget icon file. -/
def iconPath : String := "/home/vagrant/bundlegen/bundlegen/sky/resources/icon.png"

/-- Scratch workspace root used by `Utils.create_sky_widget`, keyed by the
timestamp-plus-random token of one invocation. -/
def tmpRoot (token : String) : String := "/tmp/bundlegen/" ++ token

/-- Raw text a copied file contributes as the content of the staged tree
node (plain text carried through; archive-valued files are opaque). -/
def fileText : FileVal → String
  | .text s => s
  | _ => ""

/-- Append one named child to a directory tree (`shutil.copy` of a file
into the workspace root). -/
def treeAddChild (t : FsTree) (f : String) (v : FileVal) : FsTree :=
  match t with
  | .dir m cs => .dir m (Forest.cons f (.reg hostMeta (fileText v)) cs)
  | other => other

/-- Command line of the external signer, as `Utils.create_sky_widget`
formats it. -/
def signerCmd (tmpDir outn : String) : String :=
  "/home/vagrant/bundlegen/bundlegen/sky/resources/create-sign-sky-app --skipvalid --inwgt "
    ++ tmpDir ++ "/temp.zip --pkcs /home/vagrant/bundlegen/bundlegen/sky/resources/sky-debug-widget-cert.p12 --outwgt "
    ++ outn

/-- Python `shutil.copy(src, dstDir)` into the staged workspace directory:
raises when the source file is absent, else adds it as a child of the
directory tree stored at `dstDir`. -/
def copyInto (src dstDir : String) (s : St) : PRes Unit :=
  match lookupFile s src with
  | none => PRes.err (PyErr.fileNotFound src) s
  | some v =>
    match assocGet s.dirs dstDir with
    | none => PRes.err (PyErr.fileNotFound dstDir) s
    | some t => PRes.ok () { s with dirs := (dstDir, treeAddChild t (pyBasename src) v) :: s.dirs }

/-- `Utils.create_sky_widget`: fail (returning `False`) when the source
directory is absent; otherwise delete a pre-existing output file, stage a
deep copy of the tree in a uniquely named scratch workspace, merge the two
static resource files, zip the workspace, invoke the external signer (its
exit status is the oracle `exitc`), remove the workspace, and succeed
exactly when the signer exited with status zero. -/
def create_sky_widget (cwd source dest token : String) (exitc : Int) (s : St) : PRes Bool :=
  let outn := outputName dest ".wgt"
  let src := abspath cwd source ++ "/"
  match getDirAt s src with
  | none => PRes.ok false s
  | some tree =>
  let s1 := if (lookupFile s outn).isSome then removeF outn s else s
  let tmpDir := tmpRoot token
  let wdir := tmpDir ++ "/wgt"
  let s2 := setDir wdir tree s1
  match copyInto cfgPath wdir s2 with
  | .err e t => PRes.err e t
  | .ok _ s3 =>
  match copyInto iconPath wdir s3 with
  | .err e t => PRes.err e t
  | .ok _ s4 =>
  let s5 := writeF (tmpDir ++ "/temp.zip") FileVal.zipArc s4
  let s6 := { s5 with trace := s5.trace ++ [Ev.runProc (signerCmd tmpDir outn)] }
  let s7 := rmtree tmpDir s6
  PRes.ok (exitc == 0) s7

mutual
/-- Ownership metadata of every object in a tree, in emission order. -/
def treeMetas : FsTree → List FileMeta
  | .reg m _ => [m]
  | .dir m cs => m :: forestMetas cs
  | .lnk m => [m]
/-- Ownership metadata of every object under a directory's children. -/
def forestMetas : Forest → List FileMeta
  | .nil => []
  | .cons _ t rest => treeMetas t ++ forestMetas rest
end

mutual
theorem add_tarinfo_names (u g : Option Nat) (mask : Option String) (arc : String) (t : FsTree) :
    List.map TarEntry.name (add_tarinfo u g mask arc t) = treePaths arc t := by
  cases t with
  | reg m c => rfl
  | dir m cs =>
      simp only [add_tarinfo, treePaths, List.map_cons, TarEntry.name,
        add_tarinfo_children_names u g mask arc cs]
  | lnk m => rfl
theorem add_tarinfo_children_names (u g : Option Nat) (mask : Option String) (arc : String) (cs : Forest) :
    List.map TarEntry.name (add_tarinfo_children u g mask arc cs) = forestPaths arc cs := by
  cases cs with
  | nil => rfl
  | cons f t rest =>
      simp only [add_tarinfo_children, forestPaths, List.map_append,
        add_tarinfo_names u g mask (osPathJoin arc f) t,
        add_tarinfo_children_names u g mask arc rest]
end

mutual
theorem tar_add_names (arc : String) (t : FsTree) :
    List.map TarEntry.name (tar_add arc t) = treePaths arc t := by
  cases t with
  | reg m c => rfl
  | dir m cs =>
      simp only [tar_add, treePaths, List.map_cons, TarEntry.name,
        tar_add_children_names arc cs]
  | lnk m => rfl
theorem tar_add_children_names (arc : String) (cs : Forest) :
    List.map TarEntry.name (tar_add_children arc cs) = forestPaths arc cs := by
  cases cs with
  | nil => rfl
  | cons f t rest =>
      simp only [tar_add_children, forestPaths, List.map_append,
        tar_add_names (osPathJoin arc f) t, tar_add_children_names arc rest]
end

mutual
theorem add_tarinfo_metas (u g : Option Nat) (mask : Option String) (arc : String) (t : FsTree) :
    List.map TarEntry.meta (add_tarinfo u g mask arc t)
      = List.map (applyPolicy u g mask) (treeMetas t) := by
  cases t with
  | reg m c => rfl
  | dir m cs =>
      simp only [add_tarinfo, treeMetas, List.map_cons, TarEntry.meta,
        add_tarinfo_children_metas u g mask arc cs]
  | lnk m => rfl
theorem add_tarinfo_children_metas (u g : Option Nat) (mask : Option String) (arc : String) (cs : Forest) :
    List.map TarEntry.meta (add_tarinfo_children u g mask arc cs)
      = List.map (applyPolicy u g mask) (forestMetas cs) := by
  cases cs with
  | nil => rfl
  | cons f t rest =>
      simp only [add_tarinfo_children, forestMetas, List.map_append,
        add_tarinfo_metas u g mask (osPathJoin arc f) t,
        add_tarinfo_children_metas u g mask arc rest]
end

theorem assocGet_removeAll {α : Type} (k j : String) (l : List (String × α)) :
    assocGet (removeAll k l) j = if j = k then none else assocGet l j := by
  induction l with
  | nil => simp [removeAll, assocGet]
  | cons kv rest ih =>
      obtain ⟨a, v⟩ := kv
      by_cases hak : a = k
      · subst hak
        have h1 : removeAll a ((a, v) :: rest) = removeAll a rest := by
          simp [removeAll]
        rw [h1, ih]
        by_cases hj : j = a
        · simp [hj]
        · simp only [if_neg hj, assocGet]
          rw [if_neg (fun h => hj h.symm)]
      · have h1 : removeAll k ((a, v) :: rest) = (a, v) :: removeAll k rest := by
          simp [removeAll, hak]
        rw [h1]
        by_cases haj : a = j
        · subst haj
          simp [assocGet, hak]
        · simp [assocGet, haj, ih]

theorem strData_append (s t : String) : (s ++ t).data = s.data ++ t.data := by
  cases s; cases t; rfl

theorem ne_of_lastChar {s o : String} {c d : Char} (hs : s.data.getLast? = some c)
    (ho : o.data.getLast? = some d) (hcd : c ≠ d) : s ≠ o := by
  intro h
  rw [h, ho] at hs
  exact hcd (Option.some.inj hs.symm)

theorem outputName_data (dest suf : String) :
    ∃ t, (outputName dest suf).data = t ++ suf.data := by
  unfold outputName
  by_cases h : strEndsWith dest suf = true
  · rw [if_pos h]
    obtain ⟨t, ht⟩ := List.isSuffixOf_iff_suffix.mp h
    exact ⟨t, ht.symm⟩
  · rw [if_neg h]
    exact ⟨dest.data, strData_append dest suf⟩

theorem outputName_lastChar (dest suf : String) (c : Char)
    (h : suf.data.getLast? = some c) : (outputName dest suf).data.getLast? = some c := by
  obtain ⟨t, ht⟩ := outputName_data dest suf
  rw [ht, List.getLast?_append, h]
  rfl

theorem ne_of_ipkOut (dest o : String) (d : Char)
    (ho : o.data.getLast? = some d) (hd : d ≠ 'k') : outputName dest ".ipk" ≠ o :=
  ne_of_lastChar (outputName_lastChar dest ".ipk" 'k' (by decide)) ho (Ne.symm hd)

theorem ipkOut_ne (dest : String) :
    outputName dest ".ipk" ≠ "control" ∧ outputName dest ".ipk" ≠ "data.tar.gz" ∧
    outputName dest ".ipk" ≠ "control.tar.gz" ∧ outputName dest ".ipk" ≠ "debian-binary" :=
  ⟨ne_of_ipkOut dest "control" 'l' (by decide) (by decide),
   ne_of_ipkOut dest "data.tar.gz" 'z' (by decide) (by decide),
   ne_of_ipkOut dest "control.tar.gz" 'z' (by decide) (by decide),
   ne_of_ipkOut dest "debian-binary" 'y' (by decide) (by decide)⟩

theorem pyBasename_slash (p : String) : pyBasename (p ++ "/") = "" := by
  unfold pyBasename
  rw [strData_append]
  simp [List.takeWhile]

theorem applyUid_set {U : Nat} (hU : U ≠ 0) (m : FileMeta) :
    (applyUid (some U) m).uid = U ∧ (applyUid (some U) m).uname = toString U := by
  simp [applyUid, hU]

theorem applyGid_set {U : Nat} (hU : U ≠ 0) (m : FileMeta) :
    (applyGid (some U) m).gid = U ∧ (applyGid (some U) m).gname = toString U := by
  simp [applyGid, hU]

theorem applyGid_keeps (g : Option Nat) (m : FileMeta) :
    (applyGid g m).uid = m.uid ∧ (applyGid g m).uname = m.uname ∧ (applyGid g m).mode = m.mode := by
  cases g with
  | none => exact ⟨rfl, rfl, rfl⟩
  | some n =>
      by_cases hn : n ≠ 0 <;> simp [applyGid, hn]

theorem applyUid_keeps (u : Option Nat) (m : FileMeta) :
    (applyUid u m).gid = m.gid ∧ (applyUid u m).gname = m.gname ∧ (applyUid u m).mode = m.mode := by
  cases u with
  | none => exact ⟨rfl, rfl, rfl⟩
  | some n =>
      by_cases hn : n ≠ 0 <;> simp [applyUid, hn]

theorem applyMask_keeps (mask : Option String) (m : FileMeta) :
    (applyMask mask m).uid = m.uid ∧ (applyMask mask m).uname = m.uname ∧
    (applyMask mask m).gid = m.gid ∧ (applyMask mask m).gname = m.gname := by
  cases mask with
  | none => exact ⟨rfl, rfl, rfl, rfl⟩
  | some s =>
      by_cases hs : s ≠ "" <;> simp [applyMask, hs]

theorem applyMask_set {s : String} (hs : s ≠ "") (m : FileMeta) :
    (applyMask (some s) m).mode = Nat.land m.mode (parseOct s) := by
  simp [applyMask, hs]

theorem applyPolicy_uid {U : Nat} (hU : U ≠ 0) (g : Option Nat) (mask : Option String) (m : FileMeta) :
    (applyPolicy (some U) g mask m).uid = U ∧ (applyPolicy (some U) g mask m).uname = toString U := by
  unfold applyPolicy
  obtain ⟨h1, h2, -, -⟩ := applyMask_keeps mask (applyGid g (applyUid (some U) m))
  obtain ⟨h3, h4, -⟩ := applyGid_keeps g (applyUid (some U) m)
  obtain ⟨h5, h6⟩ := applyUid_set hU m
  exact ⟨h1.trans (h3.trans h5), h2.trans (h4.trans h6)⟩

theorem applyPolicy_gid {U : Nat} (hU : U ≠ 0) (u : Option Nat) (mask : Option String) (m : FileMeta) :
    (applyPolicy u (some U) mask m).gid = U ∧ (applyPolicy u (some U) mask m).gname = toString U := by
  unfold applyPolicy
  obtain ⟨-, -, h1, h2⟩ := applyMask_keeps mask (applyGid (some U) (applyUid u m))
  obtain ⟨h3, h4⟩ := applyGid_set hU (applyUid u m)
  exact ⟨h1.trans h3, h2.trans h4⟩

theorem applyPolicy_mode {s : String} (hs : s ≠ "") (u g : Option Nat) (m : FileMeta) :
    (applyPolicy u g (some s) m).mode = Nat.land m.mode (parseOct s) := by
  unfold applyPolicy
  rw [applyMask_set hs]
  obtain ⟨-, -, h1⟩ := applyGid_keeps g (applyUid u m)
  obtain ⟨-, -, h2⟩ := applyUid_keeps u m
  rw [h1, h2]

theorem add_tarinfo_meta_mem (u g : Option Nat) (mask : Option String) (arc : String)
    (t : FsTree) : ∀ e ∈ add_tarinfo u g mask arc t, ∃ m, e.meta = applyPolicy u g mask m := by
  intro e he
  have hmap : e.meta ∈ List.map TarEntry.meta (add_tarinfo u g mask arc t) :=
    List.mem_map_of_mem TarEntry.meta he
  rw [add_tarinfo_metas u g mask arc t] at hmap
  obtain ⟨m, -, hm⟩ := List.mem_map.mp hmap
  exact ⟨m, hm.symm⟩

/-- Sample filesystem metadata used by concrete witnesses: a file owned by
uid 5 / gid 7 with permission bits `0o755`. -/
def sampleMeta : FileMeta :=
  { uid := 5, gid := 7, uname := "app", gname := "app", mode := 0o755 }

/-- C1 (counterexample): with the Ownership Policy uid set to `U = 0`,
`Utils.add_tarinfo` leaves the entry's original owner (uid 5, uname `app`)
in place — `if uid:` treats 0 as unset — so the claimed override fails at
`U = 0`. -/
theorem c1_uid_zero_cex :
    ¬ (∀ e ∈ add_tarinfo (some 0) none none "" (FsTree.reg sampleMeta "x"),
        e.meta.uid = 0 ∧ e.meta.uname = "0") := by
  intro h
  have heq : add_tarinfo (some 0) none none "" (FsTree.reg sampleMeta "x")
      = [TarEntry.mk "" FKind.reg sampleMeta (some (FileVal.text "x"))] := rfl
  have hmem : TarEntry.mk "" FKind.reg sampleMeta (some (FileVal.text "x"))
      ∈ add_tarinfo (some 0) none none "" (FsTree.reg sampleMeta "x") := by
    rw [heq]
    exact List.mem_singleton.mpr rfl
  exact absurd (h _ hmem).1 (by decide)

/-- C1 (amended): for every Ownership Policy with a nonzero uid `U` set
(nonzero gid respectively), every entry emitted by `Utils.add_tarinfo`
carries owner id `U` and owner name `str(U)`, regardless of the entry's
original ownership; `U = 0` is excluded because `if uid:` skips the
override on a zero id. -/
theorem c1_ownership_override (U : Nat) (hU : U ≠ 0) (g : Option Nat) (mask : Option String)
    (arc : String) (t : FsTree) :
    (∀ e ∈ add_tarinfo (some U) g mask arc t,
      e.meta.uid = U ∧ e.meta.uname = toString U) ∧
    (∀ e ∈ add_tarinfo g (some U) mask arc t,
      e.meta.gid = U ∧ e.meta.gname = toString U) := by
  constructor
  · intro e he
    obtain ⟨m, hm⟩ := add_tarinfo_meta_mem (some U) g mask arc t e he
    rw [hm]
    exact applyPolicy_uid hU g mask m
  · intro e he
    obtain ⟨m, hm⟩ := add_tarinfo_meta_mem g (some U) mask arc t e he
    rw [hm]
    exact applyPolicy_gid hU g mask m

/-- C1 (witness): the amended theorem applied at uid `U = 1000` on a
single-file tree owned by uid 5. -/
theorem c1_ownership_override_witness :
    (1000 : Nat) ≠ 0 ∧
      (∀ e ∈ add_tarinfo (some 1000) none none "" (FsTree.reg sampleMeta "x"),
        e.meta.uid = 1000 ∧ e.meta.uname = toString 1000) :=
  ⟨by decide, (c1_ownership_override 1000 (by decide) none none "" (FsTree.reg sampleMeta "x")).1⟩

/-- C9: under an Ownership Policy whose mode mask is set (a non-empty
string of octal digits), every entry archived by `Utils.add_tarinfo` has
its permission bits bitwise-ANDed with the mask read as octal; in
particular mask `770` on mode `0o777` yields `0o770` exactly. -/
theorem c9_mode_mask (u g : Option Nat) (s : String) (hs : s ≠ "")
    (_hoct : isOctStr s = true) (arc : String) (t : FsTree) :
    (List.map (fun e => e.meta.mode) (add_tarinfo u g (some s) arc t)
      = List.map (fun m => Nat.land m.mode (parseOct s)) (treeMetas t)) ∧
    (∀ m : FileMeta, m.mode = 0o777 → (applyPolicy u g (some "770") m).mode = 0o770) := by
  constructor
  · have h1 : List.map (fun e => e.meta.mode) (add_tarinfo u g (some s) arc t)
        = List.map FileMeta.mode (List.map TarEntry.meta (add_tarinfo u g (some s) arc t)) := by
      rw [List.map_map]
      rfl
    rw [h1, add_tarinfo_metas, List.map_map]
    have h2 : (FileMeta.mode ∘ applyPolicy u g (some s))
        = fun m => Nat.land m.mode (parseOct s) :=
      funext (fun m => applyPolicy_mode hs u g m)
    rw [h2]
  · intro m hm
    rw [applyPolicy_mode (by decide) u g m, hm]
    decide

/-- C9 (witness): the theorem applied with mask `770` to a single-file
tree whose mode is `0o755`. -/
theorem c9_mode_mask_witness :
    ("770" : String) ≠ "" ∧ isOctStr "770" = true ∧
      (List.map (fun e => e.meta.mode) (add_tarinfo none none (some "770") "" (FsTree.reg sampleMeta "x"))
        = List.map (fun m => Nat.land m.mode (parseOct "770")) (treeMetas (FsTree.reg sampleMeta "x"))) :=
  ⟨by decide, by decide,
    (c9_mode_mask none none "770" (by decide) (by decide) "" (FsTree.reg sampleMeta "x")).1⟩

/-- C6: with an empty AppMetadata mapping and a platform mapping carrying
no arch entry, `Utils.create_control_file` writes the manifest with
`Package: test_package`, `Version: 1.0.0`, an empty `Architecture` field,
`Description: some package`, `Priority: optional` and an empty `Depends`
field, as a fixed-order line-per-field text file at the relative path
`control`, whatever file was there before. -/
theorem c6_control_manifest_defaults (s : St) :
    lookupFile (create_control_file ⟨none⟩ ⟨none, none, none, none⟩ s) "control"
      = some (FileVal.text
          "Package: test_package\nVersion: 1.0.0\nArchitecture: \nDescription: some package\nPriority: optional\nDepends: \n") :=
  rfl

/-- C10: when the platform's arch entry is present and truthy (a non-empty
dict) but the inner `arch` or `variant` key is missing, the manifest's
`Architecture` field receives the literal text `None` (Python's
`str(None)`) for each missing part, rather than staying empty. -/
theorem c10_arch_str_none (d : List (String × Option String)) (a : AppMeta) (s : St)
    (hd : d ≠ []) :
    (lookupFile (create_control_file ⟨some d⟩ a s) "control"
      = some (FileVal.text (controlContent ⟨some d⟩ a))) ∧
    (archGet d "arch" = none → archGet d "variant" = none →
      architectureOf ⟨some d⟩ = "NoneNone") ∧
    (∀ w, archGet d "arch" = none → archGet d "variant" = some w →
      architectureOf ⟨some d⟩ = "None" ++ w) ∧
    (∀ w, archGet d "arch" = some w → archGet d "variant" = none →
      architectureOf ⟨some d⟩ = w ++ "None") := by
  have hne : d.isEmpty = false := by
    cases d with
    | nil => exact absurd rfl hd
    | cons x xs => rfl
  refine ⟨rfl, ?_, ?_, ?_⟩
  · intro h1 h2
    simp [architectureOf, hne, h1, h2, pyStrOpt]
  · intro w h1 h2
    simp [architectureOf, hne, h1, h2, pyStrOpt]
  · intro w h1 h2
    simp [architectureOf, hne, h1, h2, pyStrOpt]

/-- C10 (witness): the theorem applied to the one-key dict holding only an
unrelated key, where both parts are missing and the field renders as
`NoneNone`. -/
theorem c10_arch_str_none_witness :
    ([("abi", some "v1")] : List (String × Option String)) ≠ [] ∧
      architectureOf ⟨some [("abi", some "v1")]⟩ = "NoneNone" :=
  ⟨by decide,
    (c10_arch_str_none [("abi", some "v1")] ⟨none, none, none, none⟩
      { dirs := [], files := [], trace := [] } (by decide)).2.1 rfl rfl⟩

theorem lookupFile_setFile (k j : String) (v : FileVal) (s : St) :
    lookupFile (setFile k v s) j = if k = j then some v else lookupFile s j := rfl

theorem lookupFile_writeF (k j : String) (v : FileVal) (s : St) :
    lookupFile (writeF k v s) j = if k = j then some v else lookupFile s j := rfl

theorem lookupFile_tarOpenW (k j : String) (s : St) :
    lookupFile (tarOpenW k s) j = if k = j then some (FileVal.tarGz []) else lookupFile s j := rfl

theorem lookupFile_removeF (k j : String) (s : St) :
    lookupFile (removeF k s) j = if j = k then none else lookupFile s j :=
  assocGet_removeAll k j s.files

theorem getDirAt_setFile (k : String) (v : FileVal) (s : St) (p : String) :
    getDirAt (setFile k v s) p = getDirAt s p := rfl

theorem getDirAt_writeF (k : String) (v : FileVal) (s : St) (p : String) :
    getDirAt (writeF k v s) p = getDirAt s p := rfl

theorem getDirAt_tarOpenW (k : String) (s : St) (p : String) :
    getDirAt (tarOpenW k s) p = getDirAt s p := rfl

theorem getDirAt_removeF (k : String) (s : St) (p : String) :
    getDirAt (removeF k s) p = getDirAt s p := rfl

theorem create_tgz_absent (cwd source dest : String) (u g : Option Nat) (mask : Option String)
    (s : St) (hsrc : getDirAt s (abspath cwd source ++ "/") = none) :
    create_tgz cwd source dest u g mask s = (false, s) := by
  simp only [create_tgz, hsrc]

theorem create_tgz_found (cwd source dest : String) (u g : Option Nat) (mask : Option String)
    (s : St) (tree : FsTree) (hsrc : getDirAt s (abspath cwd source ++ "/") = some tree) :
    create_tgz cwd source dest u g mask s
      = (true,
          setFile (outputName dest ".tar.gz")
            (FileVal.tarGz
              (if truthyNat u || truthyNat g || truthyStr mask then
                add_tarinfo u g mask (pyBasename (abspath cwd source ++ "/")) tree
              else tar_add (pyBasename (abspath cwd source ++ "/")) tree))
            (tarOpenW (outputName dest ".tar.gz")
              (if (lookupFile s (outputName dest ".tar.gz")).isSome then
                removeF (outputName dest ".tar.gz") s
              else s))) := by
  simp only [create_tgz, hsrc]

/-- C3: for every existing source directory, the archive `Utils.create_tgz`
produces roots all entries at the basename of the absolute,
trailing-slash-normalized source path — and that basename is the empty
string, so every entry's archive name is just its path relative to the
source root: unpacking adds no extra nesting component. -/
theorem c3_tgz_rooted_at_basename (cwd source dest : String) (u g : Option Nat)
    (mask : Option String) (s : St) (tree : FsTree)
    (hsrc : getDirAt s (abspath cwd source ++ "/") = some tree) :
    (create_tgz cwd source dest u g mask s).1 = true ∧
    ∃ ms, lookupFile (create_tgz cwd source dest u g mask s).2 (outputName dest ".tar.gz")
        = some (FileVal.tarGz ms) ∧
      List.map TarEntry.name ms = treePaths (pyBasename (abspath cwd source ++ "/")) tree ∧
      pyBasename (abspath cwd source ++ "/") = "" := by
  rw [create_tgz_found cwd source dest u g mask s tree hsrc]
  refine ⟨rfl,
    (if truthyNat u || truthyNat g || truthyStr mask then
        add_tarinfo u g mask (pyBasename (abspath cwd source ++ "/")) tree
      else tar_add (pyBasename (abspath cwd source ++ "/")) tree), ?_, ?_,
    pyBasename_slash (abspath cwd source)⟩
  · rw [lookupFile_setFile, if_pos rfl]
  · split
    · exact add_tarinfo_names u g mask (pyBasename (abspath cwd source ++ "/")) tree
    · exact tar_add_names (pyBasename (abspath cwd source ++ "/")) tree

/-- Sample directory tree used by concrete witnesses: a root directory
holding one regular file `app.bin` and one symlink `lib`. -/
def sampleTree : FsTree :=
  FsTree.dir sampleMeta
    (Forest.cons "app.bin" (FsTree.reg sampleMeta "ELF") (Forest.cons "lib" (FsTree.lnk sampleMeta) Forest.nil))

/-- Sample starting state for the packagers: the source directory at
`/work/bundle`, a `control` manifest, and both widget resource files. -/
def sampleSt : St :=
  { dirs := [("/work/bundle", sampleTree)],
    files := [("control", FileVal.text "Package: test_package\n"),
              (cfgPath, FileVal.text "<widget/>"),
              (iconPath, FileVal.text "PNG")],
    trace := [] }

/-- C3 (witness): the theorem applied to the sample tree at `/work/bundle`;
the archive's entry names come out as the bare relative paths. -/
theorem c3_tgz_rooted_at_basename_witness :
    getDirAt sampleSt (abspath "/work" "bundle" ++ "/") = some sampleTree ∧
      (create_tgz "/work" "bundle" "/out/pkg" none none none sampleSt).1 = true :=
  ⟨rfl, (c3_tgz_rooted_at_basename "/work" "bundle" "/out/pkg" none none none sampleSt
      sampleTree rfl).1⟩

theorem lookupFile_stale (k j : String) (s : St) (h : ¬ j = k) :
    lookupFile (if (lookupFile s k).isSome then removeF k s else s) j = lookupFile s j := by
  split
  · rw [lookupFile_removeF, if_neg h]
  · rfl

/-- Machine state `Utils.create_ipk` reaches on its success path, spelled
out step by step (data archive build, control archive build, marker write,
outer aggregation, cleanup); proven below to be exactly what running
`create_ipk` yields. -/
def ipkFinalSt (outn : String) (dataArc : List TarEntry) (c : FileVal) (s : St) : St :=
  let sA := if (lookupFile s "data.tar.gz").isSome then removeF "data.tar.gz" s else s
  let s1 := setFile "data.tar.gz" (FileVal.tarGz dataArc) (tarOpenW "data.tar.gz" sA)
  let s2 := tarOpenW "control.tar.gz" s1
  let s3 := setFile "control.tar.gz"
    (FileVal.tarGz [TarEntry.mk "control" FKind.reg hostMeta (some c)]) s2
  let s4 := writeF "debian-binary" (FileVal.text "2.0") s3
  let s5 := tarOpenW outn s4
  let dm := TarEntry.mk "data.tar.gz" FKind.reg hostMeta (some (FileVal.tarGz dataArc))
  let cm := TarEntry.mk "control.tar.gz" FKind.reg hostMeta
    (some (FileVal.tarGz [TarEntry.mk "control" FKind.reg hostMeta (some c)]))
  let bm := TarEntry.mk "debian-binary" FKind.reg hostMeta (some (FileVal.text "2.0"))
  let s6 := setFile outn (FileVal.tarGz [dm]) s5
  let s7 := setFile outn (FileVal.tarGz [dm, cm]) s6
  let s8 := setFile outn (FileVal.tarGz [dm, cm, bm]) s7
  removeF "debian-binary" (removeF "control.tar.gz" (removeF "data.tar.gz" (removeF "control" s8)))

theorem create_ipk_run (cwd source dest : String) (s : St) (tree : FsTree) (c : FileVal)
    (hsrc : getDirAt s (abspath cwd source ++ "/") = some tree)
    (hc : lookupFile s "control" = some c) :
    create_ipk cwd source dest s
      = PRes.ok true
          (ipkFinalSt (outputName dest ".ipk")
            (tar_add (pyBasename (abspath cwd source ++ "/")) tree) c s) := by
  obtain ⟨n1, n2, n3, n4⟩ := ipkOut_ne dest
  have h1 := create_tgz_found cwd source "data.tar.gz" none none none s tree hsrc
  rw [show outputName "data.tar.gz" ".tar.gz" = "data.tar.gz" from rfl] at h1
  simp only [truthyNat, truthyStr, Bool.or_self, Bool.false_or, if_neg Bool.false_ne_true] at h1
  simp [create_ipk, h1, ipkFinalSt, tarAddFile,
    lookupFile_tarOpenW, lookupFile_setFile, lookupFile_writeF, lookupFile_removeF,
    lookupFile_stale, hc, n1, n2, n3, n4, Ne.symm n1, Ne.symm n2, Ne.symm n3, Ne.symm n4]

/-- C5: whenever `Utils.create_ipk` runs with the source directory present
and the `control` manifest already written, it succeeds and the outer ipk
archive holds exactly three members, in the fixed order `data.tar.gz`,
`control.tar.gz`, `debian-binary`, the last with literal content `2.0`. -/
theorem c5_ipk_member_order (cwd source dest : String) (s : St) (tree : FsTree) (c : FileVal)
    (hsrc : getDirAt s (abspath cwd source ++ "/") = some tree)
    (hc : lookupFile s "control" = some c) :
    ∃ s' dataArc,
      create_ipk cwd source dest s = PRes.ok true s' ∧
      lookupFile s' (outputName dest ".ipk")
        = some (FileVal.tarGz
            [TarEntry.mk "data.tar.gz" FKind.reg hostMeta (some (FileVal.tarGz dataArc)),
             TarEntry.mk "control.tar.gz" FKind.reg hostMeta
               (some (FileVal.tarGz [TarEntry.mk "control" FKind.reg hostMeta (some c)])),
             TarEntry.mk "debian-binary" FKind.reg hostMeta (some (FileVal.text "2.0"))]) ∧
      List.map TarEntry.name
          [TarEntry.mk "data.tar.gz" FKind.reg hostMeta (some (FileVal.tarGz dataArc)),
           TarEntry.mk "control.tar.gz" FKind.reg hostMeta
             (some (FileVal.tarGz [TarEntry.mk "control" FKind.reg hostMeta (some c)])),
           TarEntry.mk "debian-binary" FKind.reg hostMeta (some (FileVal.text "2.0"))]
        = ["data.tar.gz", "control.tar.gz", "debian-binary"] := by
  obtain ⟨n1, n2, n3, n4⟩ := ipkOut_ne dest
  refine ⟨ipkFinalSt (outputName dest ".ipk")
      (tar_add (pyBasename (abspath cwd source ++ "/")) tree) c s,
    tar_add (pyBasename (abspath cwd source ++ "/")) tree,
    create_ipk_run cwd source dest s tree c hsrc hc, ?_, rfl⟩
  simp [ipkFinalSt, lookupFile_removeF, lookupFile_setFile, n1, n2, n3, n4,
    Ne.symm n1, Ne.symm n2, Ne.symm n3, Ne.symm n4]

/-- C5 (witness): the theorem applied to the sample state at destination
`/out/app`. -/
theorem c5_ipk_member_order_witness :
    getDirAt sampleSt (abspath "/w" "/work/bundle" ++ "/") = some sampleTree ∧
      lookupFile sampleSt "control" = some (FileVal.text "Package: test_package\n") ∧
      ∃ s' dataArc, create_ipk "/w" "/work/bundle" "/out/app" sampleSt = PRes.ok true s' ∧
        lookupFile s' (outputName "/out/app" ".ipk")
          = some (FileVal.tarGz
              [TarEntry.mk "data.tar.gz" FKind.reg hostMeta (some (FileVal.tarGz dataArc)),
               TarEntry.mk "control.tar.gz" FKind.reg hostMeta
                 (some (FileVal.tarGz [TarEntry.mk "control" FKind.reg hostMeta
                   (some (FileVal.text "Package: test_package\n"))])),
               TarEntry.mk "debian-binary" FKind.reg hostMeta (some (FileVal.text "2.0"))]) := by
  refine ⟨rfl, rfl, ?_⟩
  obtain ⟨s', dataArc, h1, h2, -⟩ :=
    c5_ipk_member_order "/w" "/work/bundle" "/out/app" sampleSt sampleTree
      (FileVal.text "Package: test_package\n") rfl rfl
  exact ⟨s', dataArc, h1, h2⟩

/-- C7: any run of `Utils.create_ipk` that returns at all (rather than
raising) has executed the full cleanup: none of `control`, `data.tar.gz`,
`control.tar.gz`, `debian-binary` remains in the working directory. -/
theorem c7_ipk_cleanup (cwd source dest : String) (s : St) (b : Bool) (t : St)
    (h : create_ipk cwd source dest s = PRes.ok b t) :
    (lookupFile t "control").isNone ∧ (lookupFile t "data.tar.gz").isNone ∧
    (lookupFile t "control.tar.gz").isNone ∧ (lookupFile t "debian-binary").isNone := by
  unfold create_ipk at h
  dsimp only [] at h
  repeat' split at h
  all_goals simp only [PRes.ok.injEq, reduceCtorEq] at h
  obtain ⟨-, ht⟩ := h
  subst ht
  simp [lookupFile_removeF]

/-- C7 (witness): the theorem applied to the successful run from the
sample state. -/
theorem c7_ipk_cleanup_witness :
    ∃ b t, create_ipk "/w" "/work/bundle" "/out/app" sampleSt = PRes.ok b t ∧
      (lookupFile t "control").isNone ∧ (lookupFile t "data.tar.gz").isNone ∧
      (lookupFile t "control.tar.gz").isNone ∧ (lookupFile t "debian-binary").isNone := by
  refine ⟨true,
    (create_ipk "/w" "/work/bundle" "/out/app" sampleSt).state, ?_, ?_⟩
  · exact create_ipk_run "/w" "/work/bundle" "/out/app" sampleSt sampleTree
      (FileVal.text "Package: test_package\n") rfl rfl
  · exact c7_ipk_cleanup "/w" "/work/bundle" "/out/app" sampleSt true _
      (create_ipk_run "/w" "/work/bundle" "/out/app" sampleSt sampleTree
        (FileVal.text "Package: test_package\n") rfl rfl)

theorem ne_of_wgtOut (dest o : String) (d : Char)
    (ho : o.data.getLast? = some d) (hd : d ≠ 't') : outputName dest ".wgt" ≠ o :=
  ne_of_lastChar (outputName_lastChar dest ".wgt" 't' (by decide)) ho (Ne.symm hd)

theorem lookupFile_setDir (k : String) (t : FsTree) (s : St) (j : String) :
    lookupFile (setDir k t s) j = lookupFile s j := rfl

theorem lookupFile_setDirs (s : St) (d : List (String × FsTree)) (j : String) :
    lookupFile { s with dirs := d } j = lookupFile s j := rfl

theorem lookupFile_setTrace (s : St) (tr : List Ev) (j : String) :
    lookupFile { s with trace := tr } j = lookupFile s j := rfl

theorem rmtree_clears (p : String) (s : St) :
    (∀ kv ∈ (rmtree p s).dirs, strStartsWith kv.1 p = false) ∧
    (∀ kv ∈ (rmtree p s).files, strStartsWith kv.1 p = false) := by
  constructor <;> intro kv hkv <;>
    simpa using (List.mem_filter.mp hkv).2

/-- Staged state of `Utils.create_sky_widget` just before the scratch
workspace is torn down: output removed if stale, tree copied to the
workspace, both resources merged, zip written, signer launched; proven
below to be exactly the state the function tears down. -/
def wgtStagedSt (outn tmpDir : String) (tree : FsTree) (cfg icon : FileVal) (s : St) : St :=
  let s1 := if (lookupFile s outn).isSome then removeF outn s else s
  let wdir := tmpDir ++ "/wgt"
  let s2 := setDir wdir tree s1
  let s3 := { s2 with dirs := (wdir, treeAddChild tree (pyBasename cfgPath) cfg) :: s2.dirs }
  let s4 := { s3 with dirs :=
    (wdir, treeAddChild (treeAddChild tree (pyBasename cfgPath) cfg) (pyBasename iconPath) icon) :: s3.dirs }
  let s5 := writeF (tmpDir ++ "/temp.zip") FileVal.zipArc s4
  { s5 with trace := s5.trace ++ [Ev.runProc (signerCmd tmpDir outn)] }

theorem create_sky_widget_run (cwd source dest token : String) (exitc : Int) (s : St)
    (tree : FsTree) (cfg icon : FileVal)
    (hsrc : getDirAt s (abspath cwd source ++ "/") = some tree)
    (hcfg : lookupFile s cfgPath = some cfg)
    (hicon : lookupFile s iconPath = some icon) :
    create_sky_widget cwd source dest token exitc s
      = PRes.ok (exitc == 0)
          (rmtree (tmpRoot token)
            (wgtStagedSt (outputName dest ".wgt") (tmpRoot token) tree cfg icon s)) := by
  have ncfg : outputName dest ".wgt" ≠ cfgPath :=
    ne_of_wgtOut dest cfgPath 'l' (by decide) (by decide)
  have nicon : outputName dest ".wgt" ≠ iconPath :=
    ne_of_wgtOut dest iconPath 'g' (by decide) (by decide)
  simp [create_sky_widget, wgtStagedSt, copyInto, hsrc, hcfg, hicon, setDir, writeF,
    lookupFile_stale, lookupFile_setDir, lookupFile_setDirs, lookupFile_setTrace,
    lookupFile_removeF, Ne.symm ncfg, Ne.symm nicon, assocGet]

/-- C8: every run of `Utils.create_sky_widget` that reaches the signing
stage (source directory present, both static resources readable) reports
success exactly when the external signer exits with status zero, and the
scratch workspace under `/tmp/bundlegen/<token>` is gone afterwards
whatever the exit status was. -/
theorem c8_signer_propagation (cwd source dest token : String) (exitc : Int) (s : St)
    (tree : FsTree) (cfg icon : FileVal)
    (hsrc : getDirAt s (abspath cwd source ++ "/") = some tree)
    (hcfg : lookupFile s cfgPath = some cfg)
    (hicon : lookupFile s iconPath = some icon) :
    create_sky_widget cwd source dest token exitc s
        = PRes.ok (exitc == 0)
            (rmtree (tmpRoot token)
              (wgtStagedSt (outputName dest ".wgt") (tmpRoot token) tree cfg icon s)) ∧
      (∀ kv ∈ (rmtree (tmpRoot token)
          (wgtStagedSt (outputName dest ".wgt") (tmpRoot token) tree cfg icon s)).dirs,
        strStartsWith kv.1 (tmpRoot token) = false) ∧
      (∀ kv ∈ (rmtree (tmpRoot token)
          (wgtStagedSt (outputName dest ".wgt") (tmpRoot token) tree cfg icon s)).files,
        strStartsWith kv.1 (tmpRoot token) = false) :=
  ⟨create_sky_widget_run cwd source dest token exitc s tree cfg icon hsrc hcfg hicon,
   (rmtree_clears (tmpRoot token) _).1, (rmtree_clears (tmpRoot token) _).2⟩

/-- C8 (witness): the theorem applied to the sample state with a signer
exit status of 3: the packager reports failure (`3 == 0` is `false`) and
every directory and file under the scratch root is gone. -/
theorem c8_signer_propagation_witness :
    create_sky_widget "/w" "/work/bundle" "/out/app" "t0" 3 sampleSt
        = PRes.ok ((3 : Int) == 0)
            (rmtree (tmpRoot "t0")
              (wgtStagedSt (outputName "/out/app" ".wgt") (tmpRoot "t0") sampleTree
                (FileVal.text "<widget/>") (FileVal.text "PNG") sampleSt)) ∧
      ((3 : Int) == 0) = false :=
  ⟨(c8_signer_propagation "/w" "/work/bundle" "/out/app" "t0" 3 sampleSt sampleTree
      (FileVal.text "<widget/>") (FileVal.text "PNG") rfl rfl rfl).1, rfl⟩

/-- C2 (counterexample): with the source directory absent, `control`
present and no stale `data.tar.gz`, `Utils.create_ipk` does not return a
failure status — it raises an uncaught file-not-found error — and it
leaves partial files behind: `control.tar.gz`, `debian-binary` and a
partially written output archive. -/
theorem c2_ipk_missing_source_cex :
    (create_ipk "/w" "bundle" "out"
        { dirs := [], files := [("control", FileVal.text "x")], trace := [] }).isOk = false ∧
    (lookupFile (create_ipk "/w" "bundle" "out"
        { dirs := [], files := [("control", FileVal.text "x")], trace := [] }).state
      "control.tar.gz").isSome = true ∧
    (lookupFile (create_ipk "/w" "bundle" "out"
        { dirs := [], files := [("control", FileVal.text "x")], trace := [] }).state
      "debian-binary").isSome = true ∧
    (lookupFile (create_ipk "/w" "bundle" "out"
        { dirs := [], files := [("control", FileVal.text "x")], trace := [] }).state
      "out.ipk").isSome = true :=
  ⟨rfl, rfl, rfl, rfl⟩

/-- C2 (amended): when the declared source directory is absent,
`Utils.create_tgz` returns `False` and leaves the state untouched; but
`Utils.create_ipk` ignores that inner failure and (when `control` exists
and no stale `data.tar.gz` is lying around) raises a file-not-found error
instead of returning a failure status, leaving `control.tar.gz`,
`debian-binary` and a partial output file behind. -/
theorem c2_source_missing (cwd source dest : String) (u g : Option Nat) (mask : Option String)
    (s : St) (hsrc : getDirAt s (abspath cwd source ++ "/") = none) :
    (create_tgz cwd source dest u g mask s = (false, s)) ∧
    (∀ c, lookupFile s "control" = some c → lookupFile s "data.tar.gz" = none →
      create_ipk cwd source dest s
          = PRes.err (PyErr.fileNotFound "data.tar.gz")
              (tarOpenW (outputName dest ".ipk")
                (writeF "debian-binary" (FileVal.text "2.0")
                  (setFile "control.tar.gz"
                    (FileVal.tarGz [TarEntry.mk "control" FKind.reg hostMeta (some c)])
                    (tarOpenW "control.tar.gz" s)))) ∧
        (lookupFile (tarOpenW (outputName dest ".ipk")
            (writeF "debian-binary" (FileVal.text "2.0")
              (setFile "control.tar.gz"
                (FileVal.tarGz [TarEntry.mk "control" FKind.reg hostMeta (some c)])
                (tarOpenW "control.tar.gz" s)))) "control.tar.gz").isSome = true ∧
        (lookupFile (tarOpenW (outputName dest ".ipk")
            (writeF "debian-binary" (FileVal.text "2.0")
              (setFile "control.tar.gz"
                (FileVal.tarGz [TarEntry.mk "control" FKind.reg hostMeta (some c)])
                (tarOpenW "control.tar.gz" s)))) "debian-binary").isSome = true ∧
        (lookupFile (tarOpenW (outputName dest ".ipk")
            (writeF "debian-binary" (FileVal.text "2.0")
              (setFile "control.tar.gz"
                (FileVal.tarGz [TarEntry.mk "control" FKind.reg hostMeta (some c)])
                (tarOpenW "control.tar.gz" s)))) (outputName dest ".ipk")).isSome = true) := by
  obtain ⟨n1, n2, n3, n4⟩ := ipkOut_ne dest
  have h0 := create_tgz_absent cwd source "data.tar.gz" none none none s hsrc
  refine ⟨create_tgz_absent cwd source dest u g mask s hsrc, ?_⟩
  intro c hc hdata
  refine ⟨?_, ?_, ?_, ?_⟩
  · simp [create_ipk, h0, tarAddFile, hc, hdata,
      lookupFile_tarOpenW, lookupFile_setFile, lookupFile_writeF,
      n1, n2, n3, n4, Ne.symm n1, Ne.symm n2, Ne.symm n3, Ne.symm n4]
  · simp [lookupFile_tarOpenW, lookupFile_setFile, lookupFile_writeF, n3, Ne.symm n3]
  · simp [lookupFile_tarOpenW, lookupFile_setFile, lookupFile_writeF, n4, Ne.symm n4]
  · simp [lookupFile_tarOpenW]

/-- C2 (witness): the amended theorem applied to the concrete state with
no directories and only a `control` file. -/
theorem c2_source_missing_witness :
    getDirAt { dirs := [], files := [("control", FileVal.text "x")], trace := ([] : List Ev) }
        (abspath "/w" "bundle" ++ "/") = none ∧
      create_tgz "/w" "bundle" "out" none none none
          { dirs := [], files := [("control", FileVal.text "x")], trace := [] }
        = (false, { dirs := [], files := [("control", FileVal.text "x")], trace := [] }) :=
  ⟨rfl, (c2_source_missing "/w" "bundle" "out" none none none
      { dirs := [], files := [("control", FileVal.text "x")], trace := [] } rfl).1⟩

theorem rmtree_trace (p : String) (s : St) : (rmtree p s).trace = s.trace := rfl

/-- C4 (counterexample): running `Utils.create_ipk` with an output file
already present at the computed output path succeeds, yet no removal of
that path ever happens (no remove event for `out.ipk` in the trace): the
pre-existing file is truncated by reopening, not removed first, so the
claim's removal clause fails for the Composite Packager. -/
theorem c4_ipk_no_remove_cex :
    (lookupFile
        { dirs := [("/work/bundle", sampleTree)],
          files := [("out.ipk", FileVal.text "old"), ("control", FileVal.text "x")],
          trace := [] } "out.ipk").isSome = true ∧
    (create_ipk "/w" "/work/bundle" "out"
        { dirs := [("/work/bundle", sampleTree)],
          files := [("out.ipk", FileVal.text "old"), ("control", FileVal.text "x")],
          trace := [] }).isOk = true ∧
    Ev.remove "out.ipk" ∉ (create_ipk "/w" "/work/bundle" "out"
        { dirs := [("/work/bundle", sampleTree)],
          files := [("out.ipk", FileVal.text "old"), ("control", FileVal.text "x")],
          trace := [] }).state.trace := by
  refine ⟨rfl, rfl, ?_⟩
  decide

/-- C4 (amended): `Utils.create_tgz` and `Utils.create_sky_widget` remove
an existing file at the computed output path before the new output is
written; `Utils.create_ipk` performs no such removal — it truncates the
existing file by reopening the path in write mode — and still succeeds,
leaving a single fresh three-member archive at the output path. In all
three cases a re-run with the same destination succeeds despite the
pre-existing output file. -/
theorem c4_idempotent_output (cwd source dest token : String) (u g : Option Nat)
    (mask : Option String) (exitc : Int) (s : St) (tree : FsTree) (c cfg icon v : FileVal) :
    (getDirAt s (abspath cwd source ++ "/") = some tree →
      (lookupFile s (outputName dest ".tar.gz")).isSome = true →
      (create_tgz cwd source dest u g mask s).1 = true ∧
      (create_tgz cwd source dest u g mask s).2.trace
        = s.trace ++ [Ev.remove (outputName dest ".tar.gz"),
            Ev.openWrite (outputName dest ".tar.gz")]) ∧
    (getDirAt s (abspath cwd source ++ "/") = some tree →
      lookupFile s cfgPath = some cfg → lookupFile s iconPath = some icon →
      (lookupFile s (outputName dest ".wgt")).isSome = true →
      ∃ x, create_sky_widget cwd source dest token exitc s = PRes.ok (exitc == 0) x ∧
        x.trace = s.trace ++ [Ev.remove (outputName dest ".wgt"),
          Ev.openWrite (tmpRoot token ++ "/temp.zip"),
          Ev.runProc (signerCmd (tmpRoot token) (outputName dest ".wgt"))]) ∧
    (getDirAt s (abspath cwd source ++ "/") = some tree →
      lookupFile s "control" = some c →
      lookupFile s (outputName dest ".ipk") = some v →
      ∃ σ dataArc, create_ipk cwd source dest s = PRes.ok true σ ∧
        σ.trace = s.trace ++
          ((if (lookupFile s "data.tar.gz").isSome then [Ev.remove "data.tar.gz"] else []) ++
            [Ev.openWrite "data.tar.gz", Ev.openWrite "control.tar.gz",
             Ev.openWrite "debian-binary", Ev.openWrite (outputName dest ".ipk"),
             Ev.remove "control", Ev.remove "data.tar.gz", Ev.remove "control.tar.gz",
             Ev.remove "debian-binary"]) ∧
        Ev.remove (outputName dest ".ipk") ∉
          ((if (lookupFile s "data.tar.gz").isSome then [Ev.remove "data.tar.gz"] else []) ++
            [Ev.openWrite "data.tar.gz", Ev.openWrite "control.tar.gz",
             Ev.openWrite "debian-binary", Ev.openWrite (outputName dest ".ipk"),
             Ev.remove "control", Ev.remove "data.tar.gz", Ev.remove "control.tar.gz",
             Ev.remove "debian-binary"]) ∧
        lookupFile σ (outputName dest ".ipk")
          = some (FileVal.tarGz
              [TarEntry.mk "data.tar.gz" FKind.reg hostMeta (some (FileVal.tarGz dataArc)),
               TarEntry.mk "control.tar.gz" FKind.reg hostMeta
                 (some (FileVal.tarGz [TarEntry.mk "control" FKind.reg hostMeta (some c)])),
               TarEntry.mk "debian-binary" FKind.reg hostMeta (some (FileVal.text "2.0"))])) := by
  obtain ⟨n1, n2, n3, n4⟩ := ipkOut_ne dest
  refine ⟨?_, ?_, ?_⟩
  · intro hsrc houtn
    rw [create_tgz_found cwd source dest u g mask s tree hsrc]
    refine ⟨rfl, ?_⟩
    simp [setFile, tarOpenW, removeF, houtn, List.append_assoc]
  · intro hsrc hcfg hicon houtn
    refine ⟨rmtree (tmpRoot token)
        (wgtStagedSt (outputName dest ".wgt") (tmpRoot token) tree cfg icon s),
      create_sky_widget_run cwd source dest token exitc s tree cfg icon hsrc hcfg hicon, ?_⟩
    rw [rmtree_trace]
    simp [wgtStagedSt, writeF, removeF, setDir, houtn, List.append_assoc]
  · intro hsrc hc houtn
    refine ⟨ipkFinalSt (outputName dest ".ipk")
        (tar_add (pyBasename (abspath cwd source ++ "/")) tree) c s,
      tar_add (pyBasename (abspath cwd source ++ "/")) tree,
      create_ipk_run cwd source dest s tree c hsrc hc, ?_, ?_, ?_⟩
    · by_cases hst : (lookupFile s "data.tar.gz").isSome <;>
        simp [hst, ipkFinalSt, setFile, tarOpenW, writeF, removeF, List.append_assoc]
    · by_cases hst : (lookupFile s "data.tar.gz").isSome <;>
        simp [hst, n1, n2, n3, n4, Ne.symm n1, Ne.symm n2, Ne.symm n3, Ne.symm n4]
    · simp [ipkFinalSt, lookupFile_removeF, lookupFile_setFile, n1, n2, n3, n4,
        Ne.symm n1, Ne.symm n2, Ne.symm n3, Ne.symm n4]

/-- C4 (witness): the tarball clause of the amended theorem applied to the
sample state extended with a pre-existing output file: the re-run
succeeds and its trace shows the removal followed by the write. -/
theorem c4_idempotent_output_witness :
    (create_tgz "/w" "/work/bundle" "pkg" none none none
        { dirs := [("/work/bundle", sampleTree)],
          files := [("pkg.tar.gz", FileVal.text "old")], trace := [] }).1 = true ∧
    (create_tgz "/w" "/work/bundle" "pkg" none none none
        { dirs := [("/work/bundle", sampleTree)],
          files := [("pkg.tar.gz", FileVal.text "old")], trace := [] }).2.trace
      = [Ev.remove (outputName "pkg" ".tar.gz"), Ev.openWrite (outputName "pkg" ".tar.gz")] :=
  (c4_idempotent_output "/w" "/work/bundle" "pkg" "t0" none none none 0
      { dirs := [("/work/bundle", sampleTree)],
        files := [("pkg.tar.gz", FileVal.text "old")], trace := [] }
      sampleTree (FileVal.text "x") (FileVal.text "x") (FileVal.text "x")
      (FileVal.text "old")).1 rfl rfl
